/-
Verification of the WebRTC connection orchestrator of the neko server
(`server/internal/webrtc/webrtc.go`) against its natural-language
specification.

The Go code is shallowly embedded: pure computations (the codec table)
become Lean functions; effectful code (`CreatePeer`, the registered
callbacks) becomes pure functions from an explicit environment — the
outcomes of the fallible external-library and session calls — to a
result together with a trace of observable events (session calls, log
lines, track writes).  The surrounding pion/webrtc library is modelled
only through those environment outcomes.
-/
import Mathlib

set_option autoImplicit false

namespace Neko

/-! ### Data model: codec parameters and tracks (webrtc.go lines 29-38, 236-266) -/

/-- One RTCP feedback entry (`webrtc.RTCPFeedback`): a type and a parameter. -/
structure RTCPFeedback where
  typ : String
  parameter : String
deriving DecidableEq, Repr

/-- `webrtc.RTPCodecCapability`: the wire parameters of a codec. -/
structure RTPCodecCapability where
  mimeType : String
  clockRate : Nat
  channels : Nat
  sdpFmtpLine : String
  rtcpFeedback : List RTCPFeedback
deriving DecidableEq, Repr

/-- `webrtc.RTPCodecParameters`: a codec capability plus its RTP payload type. -/
structure RTPCodecParameters where
  rtpCodecCapability : RTPCodecCapability
  payloadType : Nat
deriving DecidableEq, Repr

/-- `webrtc.TrackLocalStaticSample` as far as this package observes it: the codec
capability it carries and its id / stream id. -/
structure TrackLocalStaticSample where
  codec : RTPCodecCapability
  id : String
  streamID : String
deriving DecidableEq, Repr

/-- `webrtc.NewTrackLocalStaticSample(c, id, streamID)`: constructs the track
record; in pion v3 this constructor never returns a non-nil error. -/
def newTrackLocalStaticSample (c : RTPCodecCapability) (id streamID : String) :
    TrackLocalStaticSample :=
  ⟨c, id, streamID⟩

/-- Embedding of `(*WebRTCManager).createTrack` (webrtc.go lines 236-266): the
switch over the codec name selects a fixed parameter record, the default case
fails with `"unknown codec <name>"`, and on success a static-sample track
carrying the selected capability is created with id and stream id `"stream"`. -/
def createTrack (codecName : String) :
    Except String (TrackLocalStaticSample × RTPCodecParameters) :=
  let fb : List RTCPFeedback := []
  let codecE : Except String RTPCodecParameters :=
    if codecName = "VP8" then
      .ok ⟨⟨"video/VP8", 90000, 0, "", fb⟩, 96⟩
    else if codecName = "VP9" then
      .ok ⟨⟨"video/VP9", 90000, 0, "", fb⟩, 98⟩
    else if codecName = "H264" then
      .ok ⟨⟨"video/H264", 90000, 0,
        "level-asymmetry-allowed=1;packetization-mode=1;profile-level-id=42001f", fb⟩, 102⟩
    else if codecName = "Opus" then
      .ok ⟨⟨"audio/opus", 48000, 2, "", fb⟩, 111⟩
    else if codecName = "G722" then
      .ok ⟨⟨"audio/G722", 8000, 0, "", fb⟩, 9⟩
    else if codecName = "PCMU" then
      .ok ⟨⟨"audio/PCMU", 8000, 0, "", fb⟩, 0⟩
    else if codecName = "PCMA" then
      .ok ⟨⟨"audio/PCMA", 8000, 0, "", fb⟩, 8⟩
    else
      .error ("unknown codec " ++ codecName)
  match codecE with
  | .error e => .error e
  | .ok codec =>
      .ok (newTrackLocalStaticSample codec.rtpCodecCapability "stream" "stream", codec)

/-- The seven codec names accepted by `createTrack`. -/
def supportedCodecNames : List String :=
  ["VP8", "VP9", "H264", "Opus", "G722", "PCMU", "PCMA"]

/-! ### Claim C2 -/

/-- Claim C2, as stated, is false in one detail: the error for an unsupported
codec name reads `"unknown codec <name>"`, not an "unsupported codec" error.
Concretely, `createTrack "XYZ"` fails with `"unknown codec XYZ"`, whose text
does not contain the phrase `"unsupported codec"`. -/
theorem createTrack_unsupported_message_counterexample :
    createTrack "XYZ" = .error "unknown codec XYZ" ∧
    ¬ ("unsupported codec".toList <:+: "unknown codec XYZ".toList) := by
  constructor
  · rfl
  · decide

/-- Claim C2 (amended): for every codec name in \x7bVP8, VP9, H264, Opus, G722,
PCMU, PCMA\x7d, `createTrack` returns exactly the fixed parameter tuple of the
codec table (mimeType, clockRate, channelCount, fmtpLine, payloadType) together
with a track carrying that capability, and for every other name it fails with
an "unknown codec" error and produces no track. -/
theorem createTrack_table :
    createTrack "VP8" =
      .ok (⟨⟨"video/VP8", 90000, 0, "", []⟩, "stream", "stream"⟩,
           ⟨⟨"video/VP8", 90000, 0, "", []⟩, 96⟩) ∧
    createTrack "VP9" =
      .ok (⟨⟨"video/VP9", 90000, 0, "", []⟩, "stream", "stream"⟩,
           ⟨⟨"video/VP9", 90000, 0, "", []⟩, 98⟩) ∧
    createTrack "H264" =
      .ok (⟨⟨"video/H264", 90000, 0,
             "level-asymmetry-allowed=1;packetization-mode=1;profile-level-id=42001f", []⟩,
            "stream", "stream"⟩,
           ⟨⟨"video/H264", 90000, 0,
             "level-asymmetry-allowed=1;packetization-mode=1;profile-level-id=42001f", []⟩, 102⟩) ∧
    createTrack "Opus" =
      .ok (⟨⟨"audio/opus", 48000, 2, "", []⟩, "stream", "stream"⟩,
           ⟨⟨"audio/opus", 48000, 2, "", []⟩, 111⟩) ∧
    createTrack "G722" =
      .ok (⟨⟨"audio/G722", 8000, 0, "", []⟩, "stream", "stream"⟩,
           ⟨⟨"audio/G722", 8000, 0, "", []⟩, 9⟩) ∧
    createTrack "PCMU" =
      .ok (⟨⟨"audio/PCMU", 8000, 0, "", []⟩, "stream", "stream"⟩,
           ⟨⟨"audio/PCMU", 8000, 0, "", []⟩, 0⟩) ∧
    createTrack "PCMA" =
      .ok (⟨⟨"audio/PCMA", 8000, 0, "", []⟩, "stream", "stream"⟩,
           ⟨⟨"audio/PCMA", 8000, 0, "", []⟩, 8⟩) ∧
    ∀ codecName : String, codecName ∉ supportedCodecNames →
      createTrack codecName = .error ("unknown codec " ++ codecName) := by
  refine ⟨rfl, rfl, rfl, rfl, rfl, rfl, rfl, ?_⟩
  intro codecName h
  simp only [supportedCodecNames, List.mem_cons, List.not_mem_nil, or_false, not_or] at h
  obtain ⟨h1, h2, h3, h4, h5, h6, h7⟩ := h
  simp [createTrack, h1, h2, h3, h4, h5, h6, h7]

/-- Witness for `createTrack_table`: its universally quantified clause applied
at the concrete unsupported name `"XYZ"`. -/
theorem createTrack_table_witness :
    createTrack "XYZ" = .error ("unknown codec " ++ "XYZ") :=
  createTrack_table.2.2.2.2.2.2.2 "XYZ" (by decide)

/-! ### Data model: transport configuration (config.WebRTC, webrtc.Configuration,
webrtc.SettingEngine) -/

/-- `webrtc.ICEServer`: a STUN/TURN server entry from the configuration. -/
structure ICEServer where
  urls : List String
  username : String
  credential : String
deriving DecidableEq, Repr

/-- The fields of `config.WebRTC` read by this package. -/
structure WebRTCConfig where
  iceLite : Bool
  iceServers : List ICEServer
  ephemeralMin : Nat
  ephemeralMax : Nat
  nat1To1IPs : List String
deriving DecidableEq, Repr

/-- The SDP semantics value used by `CreatePeer` (always
`webrtc.SDPSemanticsUnifiedPlanWithFallback`). -/
inductive SDPSemantics where
  | unifiedPlanWithFallback
deriving DecidableEq, Repr

/-- `webrtc.Configuration` as built by `CreatePeer` (webrtc.go lines 78-94): the
ICE server list (Go zero value: empty) and the SDP semantics. -/
structure Configuration where
  iceServers : List ICEServer := []
  sdpSemantics : SDPSemantics
deriving DecidableEq, Repr

/-- The `webrtc.SettingEngine` fields set by `CreatePeer`
(webrtc.go lines 83-99).  Timeouts are in seconds. -/
structure SettingEngine where
  lite : Bool := false
  ephemeralMin : Nat := 0
  ephemeralMax : Nat := 0
  nat1To1IPs : List String := []
  disconnectedTimeoutSec : Nat := 0
  failedTimeoutSec : Nat := 0
  keepAliveIntervalSec : Nat := 0
  srtpReplayProtectionWindow : Nat := 0
deriving DecidableEq, Repr

/-! ### Observable events

`CreatePeer` and the callbacks it registers are embedded as pure functions
producing a trace of the externally observable effects: session-registry and
session calls, connection construction, track writes and log lines. -/

/-- One observable effect of the embedded code. -/
inductive Event where
  | registerCodec (codec : RTPCodecParameters) (kind : String)
  | newConnection (configuration : Configuration) (settings : SettingEngine)
  | createDataChannel (label : String) (negotiated : Bool)
  | addTrack (kind : String)
  | setLocalDescription (sdp : String)
  | setPeer (id : String)
  | spawnDrainLoop (kind : String)
  | destroy (id : String)
  | setConnected (id : String) (flag : Bool)
  | signalCandidate (payload : String)
  | writeSample (kind : String)
  | logInfo (msg : String)
  | logWarn (msg : String)
deriving DecidableEq, Repr

/-- Number of warning log lines in a trace. -/
def warnCount (tr : List Event) : Nat :=
  (tr.filter fun e => match e with | Event.logWarn _ => true | _ => false).length

/-! ### CreatePeer (webrtc.go lines 77-234) -/

/-- Outcomes of the fallible external calls made by one `CreatePeer` run, in
source order.  `none` / `.ok` means the call succeeded; `some e` / `.error e`
carries the error.  `createOffer` additionally yields the SDP text of the
offer on success. -/
structure PeerEnv where
  registerDefaultInterceptors : Option String
  newPeerConnection : Option String
  createDataChannel : Option String
  addVideoTrack : Option String
  addAudioTrack : Option String
  createOffer : Except String String
  setLocalDescription : Option String
  setPeer : Option String
deriving Repr

/-- The four values returned by `CreatePeer`
(`string, bool, []webrtc.ICEServer, error`). -/
structure CreatePeerResult where
  sdp : String
  iceLite : Bool
  iceServers : List ICEServer
  err : Option String
deriving DecidableEq, Repr

/-- The common failure return of `CreatePeer`:
`return "", manager.config.ICELite, manager.config.ICEServers, err`. -/
def failureReturn (config : WebRTCConfig) (e : String) : CreatePeerResult :=
  ⟨"", config.iceLite, config.iceServers, some e⟩

/-- Embedding of `(*WebRTCManager).CreatePeer` (webrtc.go lines 77-234).
The manager state it reads (config and the codecs negotiated at startup) is
passed explicitly; the outcomes of the external calls come from `env`.  It
returns the four-value result and the trace of effects performed before the
function returned.  Callback registrations themselves store closures and are
embedded separately (`onConnectionStateChange`, `onICECandidate`,
`rtcpDrain`); the trace records the constructions and calls `CreatePeer`
performs directly, in source order. -/
def CreatePeer (config : WebRTCConfig) (videoCodec audioCodec : RTPCodecParameters)
    (id : String) (env : PeerEnv) : CreatePeerResult × List Event :=
  let configuration : Configuration :=
    if config.iceLite then
      { sdpSemantics := SDPSemantics.unifiedPlanWithFallback }
    else
      { iceServers := config.iceServers, sdpSemantics := SDPSemantics.unifiedPlanWithFallback }
  let settings : SettingEngine :=
    { lite := config.iceLite
      ephemeralMin := config.ephemeralMin
      ephemeralMax := config.ephemeralMax
      nat1To1IPs := config.nat1To1IPs
      disconnectedTimeoutSec := 6
      failedTimeoutSec := 6
      keepAliveIntervalSec := 3
      srtpReplayProtectionWindow := 512 }
  let trace := [Event.registerCodec audioCodec "audio", Event.registerCodec videoCodec "video"]
  match env.registerDefaultInterceptors with
  | some e => (failureReturn config e, trace)
  | none =>
    match env.newPeerConnection with
    | some e => (failureReturn config e, trace)
    | none =>
      let trace := trace ++ [Event.newConnection configuration settings]
      match env.createDataChannel with
      | some e => (failureReturn config e, trace)
      | none =>
        let trace := trace ++ [Event.createDataChannel "data" true]
        match env.addVideoTrack with
        | some e => (failureReturn config e, trace)
        | none =>
          let trace := trace ++ [Event.addTrack "video"]
          match env.addAudioTrack with
          | some e => (failureReturn config e, trace)
          | none =>
            let trace := trace ++ [Event.addTrack "audio"]
            match env.createOffer with
            | .error e => (failureReturn config e, trace)
            | .ok sdp =>
              match env.setLocalDescription with
              | some e => (failureReturn config e, trace)
              | none =>
                let trace := trace ++ [Event.setLocalDescription sdp, Event.setPeer id]
                match env.setPeer with
                | some e => (failureReturn config e, trace)
                | none =>
                  (⟨sdp, config.iceLite, config.iceServers, none⟩,
                   trace ++ [Event.spawnDrainLoop "video", Event.spawnDrainLoop "audio"])

/-! ### The connection-state callback (webrtc.go lines 165-183) -/

/-- `webrtc.PeerConnectionState`. -/
inductive PeerConnectionState where
  | new
  | connecting
  | connected
  | disconnected
  | failed
  | closed
deriving DecidableEq, Repr

/-- Embedding of the `OnConnectionStateChange` callback registered by
`CreatePeer` (webrtc.go lines 165-183).  `setConnectedResult` is the outcome
of `session.SetConnected(true)` when that call is made. -/
def onConnectionStateChange (id : String) (setConnectedResult : Option String)
    (state : PeerConnectionState) : List Event :=
  match state with
  | .disconnected => [Event.logInfo "peer disconnected", Event.destroy id]
  | .failed => [Event.logWarn "peer failed", Event.destroy id]
  | .closed => [Event.logInfo "peer closed", Event.destroy id]
  | .connected =>
      Event.logInfo "peer connected" :: Event.setConnected id true ::
        (match setConnectedResult with
         | some _ => [Event.logWarn "unable to set connected on peer", Event.destroy id]
         | none => [])
  | _ => []

/-! ### The ICE-candidate callback (webrtc.go lines 185-201) -/

/-- The fields of a discovered `webrtc.ICECandidate` that its JSON
serialization embeds. -/
structure ICECandidate where
  foundation : String
  priority : Nat
  address : String
  port : Nat
  typ : String
deriving DecidableEq, Repr

/-- Embedding of the `OnICECandidate` callback registered by `CreatePeer`
(webrtc.go lines 185-201).  `marshal` is the outcome of
`json.Marshal(i.ToJSON())` and `signal` the outcome of
`session.SignalCandidate` on a given payload. -/
def onICECandidate (marshal : ICECandidate → Except String String)
    (signal : String → Option String) (i : Option ICECandidate) : List Event :=
  match i with
  | none => [Event.logInfo "sent all ICECandidates"]
  | some c =>
      match marshal c with
      | .error _ => [Event.logWarn "converting ICECandidate to json failed"]
      | .ok s =>
          Event.signalCandidate s ::
            (match signal s with
             | some _ => [Event.logWarn "sending SignalCandidate failed"]
             | none => [])

/-- Trickling a sequence of candidate events: each one is handled by an
independent invocation of the callback. -/
def processCandidates (marshal : ICECandidate → Except String String)
    (signal : String → Option String) : List (Option ICECandidate) → List Event
  | [] => []
  | i :: rest => onICECandidate marshal signal i ++ processCandidates marshal signal rest

/-- The string `sub` occurs contiguously inside `s`. -/
def containsText (s sub : String) : Prop := sub.toList <:+: s.toList

/-- Model of pion's `ICECandidate.ToJSON` composed with `json.Marshal`: the
serialized descriptor is a JSON object whose `candidate` field is the
candidate line, which spells out the candidate's address.  (In the library
this serialization cannot fail; the Go code nevertheless handles a failure,
which the handler embedding keeps abstract.) -/
def marshalICECandidateModel (c : ICECandidate) : Except String String :=
  .ok ("\x7b\"candidate\":\"candidate:" ++ c.foundation ++ " 1 udp "
    ++ toString c.priority ++ " " ++ c.address ++ " " ++ toString c.port
    ++ " typ " ++ c.typ ++ "\",\"sdpMid\":\"0\",\"sdpMLineIndex\":0\x7d")

/-! ### The frame consumers (webrtc.go lines 47-62) -/

/-- One encoded media unit (`types.Sample` / `media.Sample`). -/
structure Sample where
  data : List Nat
  duration : Nat
deriving DecidableEq, Repr

/-- Outcome of `WriteSample`: `closedPipe` is `io.ErrClosedPipe`, the error a
write into a torn-down track fails with. -/
inductive WriteError where
  | closedPipe
  | other (msg : String)
deriving DecidableEq, Repr

/-- Embedding of the audio frame consumer registered by `Start`
(webrtc.go lines 47-51): write the sample into the shared audio track and warn
unless the failure is `io.ErrClosedPipe`. -/
def audioFrameConsumer (write : Sample → Option WriteError) (sample : Sample) : List Event :=
  Event.writeSample "audio" ::
    match write sample with
    | some e => if e ≠ WriteError.closedPipe then [Event.logWarn "audio pipeline failed to write"] else []
    | none => []

/-- Embedding of the video frame consumer registered by `Start`
(webrtc.go lines 58-62). -/
def videoFrameConsumer (write : Sample → Option WriteError) (sample : Sample) : List Event :=
  Event.writeSample "video" ::
    match write sample with
    | some e => if e ≠ WriteError.closedPipe then [Event.logWarn "video pipeline failed to write"] else []
    | none => []

/-! ### The RTCP drain loops (webrtc.go lines 215-231) -/

/-- Embedding of the body of the two identical RTCP drain goroutines spawned
by `CreatePeer`: repeatedly read into a 1500-byte buffer, discard the data,
and return the first time a read fails.  `read bufSize k` is the outcome of
the `k`-th read into a buffer of `bufSize` bytes.  The unbounded `for` loop is
embedded with explicit fuel: `some (k, tr)` means the loop returned after the
read at index `k` failed, having produced the log events `tr`; `none` means
the fuel ran out first. -/
def rtcpDrain (read : Nat → Nat → Except String (List Nat)) :
    Nat → Nat → Option (Nat × List Event)
  | _, 0 => none
  | k, fuel + 1 =>
      match read 1500 k with
      | .error _ => some (k, [])
      | .ok _ => rtcpDrain read (k + 1) fuel

/-! ### Claim C4 -/

/-- Claim C4: for every viewer id, a connectivity-state transition event to
`disconnected`, `failed`, or `closed` observed by the connection-state handler
results in exactly one `Destroy(viewerID)` call on the session registry,
regardless of which of the three states it is. -/
theorem terminal_state_destroys_once (id : String) (setConnectedResult : Option String)
    (state : PeerConnectionState)
    (h : state = .disconnected ∨ state = .failed ∨ state = .closed) :
    (onConnectionStateChange id setConnectedResult state).count (Event.destroy id) = 1 := by
  rcases h with h | h | h <;> subst h <;>
    simp [onConnectionStateChange, List.count_cons, List.count_nil]

/-- Witness for `terminal_state_destroys_once` at the concrete viewer
`"viewer-1"` and the `closed` state. -/
theorem terminal_state_destroys_once_witness :
    (onConnectionStateChange "viewer-1" none .closed).count (Event.destroy "viewer-1") = 1 :=
  terminal_state_destroys_once "viewer-1" none .closed (by decide)

/-! ### Claim C5 -/

/-- Claim C5: for every viewer id, a connectivity-state transition to
`connected` calls the Session's `SetConnected(true)`; if that call succeeds
the handler performs zero `Destroy` calls, and if it fails the handler
performs exactly one `Destroy(viewerID)` call. -/
theorem connected_state_setConnected (id : String) (setConnectedResult : Option String) :
    Event.setConnected id true ∈ onConnectionStateChange id setConnectedResult .connected ∧
    (setConnectedResult = none →
      (onConnectionStateChange id setConnectedResult .connected).count (Event.destroy id) = 0) ∧
    (∀ e, setConnectedResult = some e →
      (onConnectionStateChange id setConnectedResult .connected).count (Event.destroy id) = 1) := by
  refine ⟨?_, ?_, ?_⟩
  · cases setConnectedResult <;> simp [onConnectionStateChange]
  · intro h
    subst h
    simp [onConnectionStateChange, List.count_cons, List.count_nil]
  · intro e h
    subst h
    simp [onConnectionStateChange, List.count_cons, List.count_nil]

/-- Witness for `connected_state_setConnected` at the concrete viewer
`"viewer-1"` with a failing `SetConnected`. -/
theorem connected_state_setConnected_witness :
    Event.setConnected "viewer-1" true ∈
      onConnectionStateChange "viewer-1" (some "session locked") .connected ∧
    (onConnectionStateChange "viewer-1" (some "session locked") .connected).count
      (Event.destroy "viewer-1") = 1 := by
  have h := connected_state_setConnected "viewer-1" (some "session locked")
  exact ⟨h.1, h.2.2 "session locked" rfl⟩

/-! ### Claim C7 -/

/-- Claim C7: for every Sample delivered to a frame consumer registered by
`Start`, a `WriteSample` failure equal to the closed-pipe error
(`io.ErrClosedPipe`) produces no warning log, and every other `WriteSample`
failure produces exactly one warning log.  The consumers are total functions
on their inputs, so no failure propagates out of them. -/
theorem frame_write_failure_logging (write : Sample → Option WriteError) (sample : Sample) :
    (write sample = some .closedPipe →
      warnCount (audioFrameConsumer write sample) = 0 ∧
      warnCount (videoFrameConsumer write sample) = 0) ∧
    (∀ msg, write sample = some (.other msg) →
      warnCount (audioFrameConsumer write sample) = 1 ∧
      warnCount (videoFrameConsumer write sample) = 1) := by
  constructor
  · intro h
    constructor <;> simp [audioFrameConsumer, videoFrameConsumer, warnCount, h]
  · intro msg h
    constructor <;> simp [audioFrameConsumer, videoFrameConsumer, warnCount, h]

/-- Witness for `frame_write_failure_logging` at a concrete sample and a
concrete non-closed-pipe write failure. -/
theorem frame_write_failure_logging_witness :
    warnCount (audioFrameConsumer (fun _ => some (.other "buffer full")) ⟨[1, 2], 33⟩) = 1 ∧
    warnCount (videoFrameConsumer (fun _ => some (.other "buffer full")) ⟨[1, 2], 33⟩) = 1 :=
  (frame_write_failure_logging (fun _ => some (.other "buffer full")) ⟨[1, 2], 33⟩).2
    "buffer full" rfl

/-! ### Claim C8 -/

/-- Claim C8: for every ICE candidate delivered to the candidate observer
registered by `CreatePeer`: a non-nil candidate is JSON-serialized and the
serialized string — which, by the serialization model, contains the
candidate's address — is passed to the Session's `SignalCandidate`; if
serialization or `SignalCandidate` fails, the failure is logged (one warning)
and that candidate is dropped while subsequent candidates are still processed;
the nil end-of-gathering event never results in a `SignalCandidate` call.
The hypothesis `hmarshal` records the library guarantee that a successful
JSON serialization of a candidate spells out its address. -/
theorem ice_candidate_handler_spec (marshal : ICECandidate → Except String String)
    (signal : String → Option String)
    (hmarshal : ∀ c s, marshal c = .ok s → containsText s c.address) :
    (∀ p, Event.signalCandidate p ∉ onICECandidate marshal signal none) ∧
    (∀ c s, marshal c = .ok s →
      Event.signalCandidate s ∈ onICECandidate marshal signal (some c) ∧
      containsText s c.address) ∧
    (∀ c e, marshal c = .error e →
      (∀ p, Event.signalCandidate p ∉ onICECandidate marshal signal (some c)) ∧
      warnCount (onICECandidate marshal signal (some c)) = 1) ∧
    (∀ c s e, marshal c = .ok s → signal s = some e →
      warnCount (onICECandidate marshal signal (some c)) = 1) ∧
    (∀ i rest, processCandidates marshal signal (i :: rest) =
      onICECandidate marshal signal i ++ processCandidates marshal signal rest) := by
  refine ⟨?_, ?_, ?_, ?_, ?_⟩
  · intro p
    simp [onICECandidate]
  · intro c s h
    refine ⟨?_, hmarshal c s h⟩
    cases hsig : signal s <;> simp [onICECandidate, h, hsig]
  · intro c e h
    constructor
    · intro p
      simp [onICECandidate, h]
    · simp [onICECandidate, h, warnCount]
  · intro c s e h hsig
    simp [onICECandidate, h, hsig, warnCount]
  · intro i rest
    rfl

/-- A concrete discovered host candidate with address `10.0.0.5`
(spec Scenario E). -/
def sampleCandidate : ICECandidate :=
  ⟨"1234", 2130706431, "10.0.0.5", 54321, "host"⟩

/-- The JSON descriptor the serialization model produces for
`sampleCandidate`. -/
def sampleCandidateJSON : String :=
  "\x7b\"candidate\":\"candidate:1234 1 udp 2130706431 10.0.0.5 54321 typ host\",\"sdpMid\":\"0\",\"sdpMLineIndex\":0\x7d"

/-- Witness for `ice_candidate_handler_spec`: under the modelled JSON
serialization and an always-succeeding `SignalCandidate`, the candidate of
Scenario E is signalled with a JSON string containing `"10.0.0.5"`. -/
theorem ice_candidate_handler_spec_witness :
    Event.signalCandidate sampleCandidateJSON ∈
      onICECandidate marshalICECandidateModel (fun _ => none) (some sampleCandidate) ∧
    containsText sampleCandidateJSON "10.0.0.5" := by
  have hmarshal : ∀ c s, marshalICECandidateModel c = .ok s → containsText s c.address := by
    intro c s h
    have hs : ("\x7b\"candidate\":\"candidate:" ++ c.foundation ++ " 1 udp "
        ++ toString c.priority ++ " " ++ c.address ++ " " ++ toString c.port
        ++ " typ " ++ c.typ ++ "\",\"sdpMid\":\"0\",\"sdpMLineIndex\":0\x7d") = s := by
      injection h
    refine hs ▸ ⟨("\x7b\"candidate\":\"candidate:" ++ c.foundation ++ " 1 udp "
        ++ toString c.priority ++ " ").toList,
      (" " ++ toString c.port ++ " typ " ++ c.typ
        ++ "\",\"sdpMid\":\"0\",\"sdpMLineIndex\":0\x7d").toList, ?_⟩
    simp [String.toList, List.append_assoc]
  exact (ice_candidate_handler_spec marshalICECandidateModel (fun _ => none) hmarshal).2.1
    sampleCandidate sampleCandidateJSON rfl

/-! ### Claim C9 -/

/-- Whether a read outcome is a failure. -/
def readFailed (r : Except String (List Nat)) : Bool :=
  match r with
  | .error _ => true
  | .ok _ => false

/-- If the reads from index `k0` succeed for `k` steps and the read at index
`k0 + k` fails, the drain loop started at `k0` with more than `k` units of
fuel returns at index `k0 + k` with an empty trace. -/
theorem rtcpDrain_reaches (read : Nat → Nat → Except String (List Nat)) :
    ∀ k k0 : Nat, (∀ j, j < k → readFailed (read 1500 (k0 + j)) = false) →
      readFailed (read 1500 (k0 + k)) = true →
      ∀ fuel, k < fuel → rtcpDrain read k0 fuel = some (k0 + k, []) := by
  intro k
  induction k with
  | zero =>
      intro k0 _ hfail fuel hfuel
      obtain ⟨f, rfl⟩ : ∃ f, fuel = f + 1 :=
        ⟨fuel - 1, (Nat.succ_pred_eq_of_pos hfuel).symm⟩
      rw [Nat.add_zero] at hfail
      cases hr : read 1500 k0 with
      | error e => simp [rtcpDrain, hr]
      | ok v => rw [hr] at hfail; simp [readFailed] at hfail
  | succ n ih =>
      intro k0 hok hfail fuel hfuel
      obtain ⟨f, rfl⟩ : ∃ f, fuel = f + 1 :=
        ⟨fuel - 1, (Nat.succ_pred_eq_of_pos (Nat.lt_of_le_of_lt (Nat.zero_le _) hfuel)).symm⟩
      have h0 : readFailed (read 1500 k0) = false := by
        have := hok 0 (Nat.succ_pos n)
        rwa [Nat.add_zero] at this
      cases hr : read 1500 k0 with
      | error e => rw [hr] at h0; simp [readFailed] at h0
      | ok v =>
          have hstep : rtcpDrain read k0 (f + 1) = rtcpDrain read (k0 + 1) f := by
            simp [rtcpDrain, hr]
          have hok2 : ∀ j, j < n → readFailed (read 1500 (k0 + 1 + j)) = false := by
            intro j hj
            have := hok (j + 1) (Nat.succ_lt_succ hj)
            rwa [show k0 + 1 + j = k0 + (j + 1) by omega]
          have hfail2 : readFailed (read 1500 (k0 + 1 + n)) = true := by
            rwa [show k0 + 1 + n = k0 + (n + 1) by omega]
          rw [hstep, ih (k0 + 1) hok2 hfail2 f (by omega)]
          rw [show k0 + 1 + n = k0 + (n + 1) by omega]

/-- Claim C9: each RTCP drain loop started by `CreatePeer` (the video and the
audio one run the same body) repeatedly performs blocking reads into a fixed
1500-byte buffer, discards every result, and returns the first time a read
fails, logging nothing on exit; under the precondition that some read
eventually fails, the loop terminates.  The final clause makes the discarding
explicit: any read source failing at the same indices drives the loop to the
identical exit. -/
theorem rtcp_drain_terminates (read : Nat → Nat → Except String (List Nat))
    (h : ∃ m, readFailed (read 1500 m) = true) :
    ∃ fuel k,
      rtcpDrain read 0 fuel = some (k, []) ∧
      readFailed (read 1500 k) = true ∧
      (∀ j, j < k → readFailed (read 1500 j) = false) ∧
      ∀ read2 : Nat → Nat → Except String (List Nat),
        (∀ n, readFailed (read2 1500 n) = readFailed (read 1500 n)) →
        rtcpDrain read2 0 fuel = some (k, []) := by
  have hmin : ∀ j, j < Nat.find h → readFailed (read 1500 j) = false := by
    intro j hj
    have := Nat.find_min h hj
    simpa using this
  have hspec : readFailed (read 1500 (Nat.find h)) = true := Nat.find_spec h
  refine ⟨Nat.find h + 1, Nat.find h, ?_, hspec, hmin, ?_⟩
  · have := rtcpDrain_reaches read (Nat.find h) 0
      (fun j hj => by simpa using hmin j hj)
      (by simpa using hspec) (Nat.find h + 1) (Nat.lt_succ_self _)
    simpa using this
  · intro read2 hagree
    have := rtcpDrain_reaches read2 (Nat.find h) 0
      (fun j hj => by rw [Nat.zero_add, hagree]; exact hmin j hj)
      (by rw [Nat.zero_add, hagree]; exact hspec) (Nat.find h + 1) (Nat.lt_succ_self _)
    simpa using this

/-- A concrete read source whose third read fails, as when the connection is
torn down. -/
def drainReadFixture : Nat → Nat → Except String (List Nat) :=
  fun _ k => if k = 2 then .error "connection closed" else .ok [0]

/-- Witness for `rtcp_drain_terminates` at the concrete read source whose
third read fails. -/
theorem rtcp_drain_terminates_witness :
    ∃ fuel k,
      rtcpDrain drainReadFixture 0 fuel = some (k, []) ∧
      readFailed (drainReadFixture 1500 k) = true ∧
      (∀ j, j < k → readFailed (drainReadFixture 1500 j) = false) ∧
      ∀ read2 : Nat → Nat → Except String (List Nat),
        (∀ n, readFailed (read2 1500 n) = readFailed (drainReadFixture 1500 n)) →
        rtcpDrain read2 0 fuel = some (k, []) :=
  rtcp_drain_terminates drainReadFixture ⟨2, by decide⟩

/-! ### Concrete fixtures for the CreatePeer claims -/

/-- A concrete configured ICE server. -/
def sampleServer : ICEServer := ⟨["stun:stun.example.org:3478"], "user", "secret"⟩

/-- The VP8 codec parameters negotiated at startup. -/
def vp8Params : RTPCodecParameters := ⟨⟨"video/VP8", 90000, 0, "", []⟩, 96⟩

/-- The Opus codec parameters negotiated at startup. -/
def opusParams : RTPCodecParameters := ⟨⟨"audio/opus", 48000, 2, "", []⟩, 111⟩

/-- An environment in which every external call succeeds. -/
def okEnv : PeerEnv := ⟨none, none, none, none, none, .ok "v=0", none, none⟩

/-- An environment in which building the peer connection fails. -/
def badEnv : PeerEnv :=
  ⟨none, some "resource exhausted", none, none, none, .ok "v=0", none, none⟩

/-- A configuration with ICE-lite enabled and one configured ICE server. -/
def liteConfig : WebRTCConfig := ⟨true, [sampleServer], 59000, 59100, []⟩

/-- A configuration with ICE-lite disabled. -/
def fullConfig : WebRTCConfig := ⟨false, [sampleServer], 59000, 59100, ["203.0.113.7"]⟩

/-- The settings `CreatePeer` builds from `liteConfig`. -/
def liteSettings : SettingEngine := ⟨true, 59000, 59100, [], 6, 6, 3, 512⟩

/-- Whether an event records a peer-connection construction. -/
def isNewConnection : Event → Bool :=
  fun e => match e with | Event.newConnection _ _ => true | _ => false

/-! ### Claim C1 -/

/-- Claim C1, as stated, is false in its second half: with ICE-lite enabled
and one configured ICE server, the connection is indeed constructed with no
ICE servers, but `CreatePeer` returns the configured list — not the (empty)
list actually applied to the connection. -/
theorem createPeer_iceLite_counterexample :
    ((CreatePeer liteConfig vp8Params opusParams "viewer-1" okEnv).2.filter isNewConnection) =
      [Event.newConnection ⟨[], .unifiedPlanWithFallback⟩ liteSettings] ∧
    (CreatePeer liteConfig vp8Params opusParams "viewer-1" okEnv).1.iceServers =
      [sampleServer] ∧
    [sampleServer] ≠ ([] : List ICEServer) := by
  refine ⟨rfl, rfl, by decide⟩

/-- Claim C1 (amended): for every call to `CreatePeer` with ICE-lite enabled
in the configuration, any peer connection it constructs is built with no ICE
servers (and a lite setting engine), while the ICE server list returned by
`CreatePeer` is the configured one — which is therefore not in general the
list applied to the connection. -/
theorem createPeer_iceLite_effective (config : WebRTCConfig)
    (videoCodec audioCodec : RTPCodecParameters) (id : String) (env : PeerEnv)
    (h : config.iceLite = true) :
    (∀ cfg st,
      Event.newConnection cfg st ∈ (CreatePeer config videoCodec audioCodec id env).2 →
      cfg.iceServers = [] ∧ st.lite = true) ∧
    (CreatePeer config videoCodec audioCodec id env).1.iceServers = config.iceServers := by
  obtain ⟨f1, f2, f3, f4, f5, f6, f7, f8⟩ := env
  cases f1 <;> cases f2 <;> cases f3 <;> cases f4 <;> cases f5 <;> cases f6 <;>
    cases f7 <;> cases f8 <;>
    simp_all [CreatePeer, failureReturn]

/-- Witness for `createPeer_iceLite_effective` at the concrete ICE-lite
configuration and the all-success environment. -/
theorem createPeer_iceLite_effective_witness :
    (∀ cfg st,
      Event.newConnection cfg st ∈ (CreatePeer liteConfig vp8Params opusParams "viewer-1" okEnv).2 →
      cfg.iceServers = [] ∧ st.lite = true) ∧
    (CreatePeer liteConfig vp8Params opusParams "viewer-1" okEnv).1.iceServers =
      liteConfig.iceServers :=
  createPeer_iceLite_effective liteConfig vp8Params opusParams "viewer-1" okEnv rfl

/-! ### Claim C3 -/

/-- Claim C3: for every call to `CreatePeer` that returns without error, the
returned SDP offer string is non-empty, the Session's `SetPeer` is invoked
exactly once before `CreatePeer` returns, and the offer has been set as the
local description before it is returned to the caller.  The hypothesis
`hoffer` records the library guarantee that a successfully created offer
carries non-empty SDP text. -/
theorem createPeer_success_shape (config : WebRTCConfig)
    (videoCodec audioCodec : RTPCodecParameters) (id : String) (env : PeerEnv)
    (hok : (CreatePeer config videoCodec audioCodec id env).1.err = none)
    (hoffer : ∀ s, env.createOffer = .ok s → s ≠ "") :
    (CreatePeer config videoCodec audioCodec id env).1.sdp ≠ "" ∧
    (CreatePeer config videoCodec audioCodec id env).2.count (Event.setPeer id) = 1 ∧
    Event.setLocalDescription (CreatePeer config videoCodec audioCodec id env).1.sdp ∈
      (CreatePeer config videoCodec audioCodec id env).2 := by
  obtain ⟨f1, f2, f3, f4, f5, f6, f7, f8⟩ := env
  cases f1 <;> cases f2 <;> cases f3 <;> cases f4 <;> cases f5 <;> cases f6 <;>
    cases f7 <;> cases f8 <;>
    simp_all [CreatePeer, failureReturn, List.count_cons]

/-- Witness for `createPeer_success_shape` at the concrete full-ICE
configuration and the all-success environment. -/
theorem createPeer_success_shape_witness :
    (CreatePeer fullConfig vp8Params opusParams "viewer-1" okEnv).1.sdp ≠ "" ∧
    (CreatePeer fullConfig vp8Params opusParams "viewer-1" okEnv).2.count
      (Event.setPeer "viewer-1") = 1 ∧
    Event.setLocalDescription (CreatePeer fullConfig vp8Params opusParams "viewer-1" okEnv).1.sdp ∈
      (CreatePeer fullConfig vp8Params opusParams "viewer-1" okEnv).2 :=
  createPeer_success_shape fullConfig vp8Params opusParams "viewer-1" okEnv rfl
    (by intro s hs; injection hs with hs2; subst hs2; decide)

/-! ### Claim C6 -/

/-- Claim C6: for every call to `CreatePeer` in which any step fails,
`CreatePeer` returns that error to the caller (with an empty offer and the
configured flag and server list), no Peer remains attached to the Session
(if `SetPeer` was invoked at all, it was the failing step), no event touches
another viewer's Peer, nothing is written to the shared tracks, and the
returned error is the error of one of the steps. -/
theorem createPeer_failure_isolated (config : WebRTCConfig)
    (videoCodec audioCodec : RTPCodecParameters) (id : String) (env : PeerEnv) (e : String)
    (h : (CreatePeer config videoCodec audioCodec id env).1.err = some e) :
    (CreatePeer config videoCodec audioCodec id env).1 =
      ⟨"", config.iceLite, config.iceServers, some e⟩ ∧
    (Event.setPeer id ∈ (CreatePeer config videoCodec audioCodec id env).2 →
      env.setPeer = some e) ∧
    (∀ id2, id2 ≠ id →
      Event.setPeer id2 ∉ (CreatePeer config videoCodec audioCodec id env).2 ∧
      Event.destroy id2 ∉ (CreatePeer config videoCodec audioCodec id env).2) ∧
    (∀ kind, Event.writeSample kind ∉ (CreatePeer config videoCodec audioCodec id env).2) ∧
    (env.registerDefaultInterceptors = some e ∨ env.newPeerConnection = some e ∨
      env.createDataChannel = some e ∨ env.addVideoTrack = some e ∨
      env.addAudioTrack = some e ∨ env.createOffer = .error e ∨
      env.setLocalDescription = some e ∨ env.setPeer = some e) := by
  obtain ⟨f1, f2, f3, f4, f5, f6, f7, f8⟩ := env
  cases f1 <;> cases f2 <;> cases f3 <;> cases f4 <;> cases f5 <;> cases f6 <;>
    cases f7 <;> cases f8 <;>
    simp_all [CreatePeer, failureReturn]

/-- Witness for `createPeer_failure_isolated` at the concrete environment in
which building the peer connection fails. -/
theorem createPeer_failure_isolated_witness :
    (CreatePeer fullConfig vp8Params opusParams "viewer-1" badEnv).1 =
      ⟨"", fullConfig.iceLite, fullConfig.iceServers, some "resource exhausted"⟩ ∧
    (Event.setPeer "viewer-1" ∈ (CreatePeer fullConfig vp8Params opusParams "viewer-1" badEnv).2 →
      badEnv.setPeer = some "resource exhausted") ∧
    (∀ id2, id2 ≠ "viewer-1" →
      Event.setPeer id2 ∉ (CreatePeer fullConfig vp8Params opusParams "viewer-1" badEnv).2 ∧
      Event.destroy id2 ∉ (CreatePeer fullConfig vp8Params opusParams "viewer-1" badEnv).2) ∧
    (∀ kind, Event.writeSample kind ∉ (CreatePeer fullConfig vp8Params opusParams "viewer-1" badEnv).2) ∧
    (badEnv.registerDefaultInterceptors = some "resource exhausted" ∨
      badEnv.newPeerConnection = some "resource exhausted" ∨
      badEnv.createDataChannel = some "resource exhausted" ∨
      badEnv.addVideoTrack = some "resource exhausted" ∨
      badEnv.addAudioTrack = some "resource exhausted" ∨
      badEnv.createOffer = .error "resource exhausted" ∨
      badEnv.setLocalDescription = some "resource exhausted" ∨
      badEnv.setPeer = some "resource exhausted") :=
  createPeer_failure_isolated fullConfig vp8Params opusParams "viewer-1" badEnv
    "resource exhausted" rfl

/-! ### Claim C10 -/

/-- Claim C10: `CreatePeer` always returns the configured ICE-lite flag and
the configured ICE server list — the same values on success and on failure —
and whenever it returns a non-nil error the returned SDP offer string is
empty.  The caller can therefore distinguish success from failure by the
error (or the empty offer) but not by the flag or the server list. -/
theorem createPeer_error_return_shape (config : WebRTCConfig)
    (videoCodec audioCodec : RTPCodecParameters) (id : String) (env : PeerEnv) :
    (CreatePeer config videoCodec audioCodec id env).1.iceLite = config.iceLite ∧
    (CreatePeer config videoCodec audioCodec id env).1.iceServers = config.iceServers ∧
    ∀ e, (CreatePeer config videoCodec audioCodec id env).1.err = some e →
      (CreatePeer config videoCodec audioCodec id env).1.sdp = "" := by
  obtain ⟨f1, f2, f3, f4, f5, f6, f7, f8⟩ := env
  cases f1 <;> cases f2 <;> cases f3 <;> cases f4 <;> cases f5 <;> cases f6 <;>
    cases f7 <;> cases f8 <;>
    simp_all [CreatePeer, failureReturn]

/-- Witness for `createPeer_error_return_shape` at the concrete failing
environment. -/
theorem createPeer_error_return_shape_witness :
    (CreatePeer fullConfig vp8Params opusParams "viewer-1" badEnv).1.iceLite =
      fullConfig.iceLite ∧
    (CreatePeer fullConfig vp8Params opusParams "viewer-1" badEnv).1.iceServers =
      fullConfig.iceServers ∧
    (CreatePeer fullConfig vp8Params opusParams "viewer-1" badEnv).1.sdp = "" := by
  have h := createPeer_error_return_shape fullConfig vp8Params opusParams "viewer-1" badEnv
  exact ⟨h.1, h.2.1, h.2.2 "resource exhausted" rfl⟩

end Neko
